import Mathlib

/-!
Verification of the think-while-you-speak repository.

This file gives a shallow embedding, in Lean, of the logic of the
repository: the `Personality` class of `personalities.js` (conversation
history trimming, pending-transcription batching), the request handlers of
`app.js` (`/query-llama`, `/transcribe`, the `PersonalityManager`), and the
client playback state machine of `public/js/main.js` (`playAudio`,
`onSpeechStart`, `onSpeechEnd`), together with theorems settling the
specification claims about them.

Conventions: JavaScript arrays become `List`, `undefined`-able values become
`Option`, machine integers and clocks become `Nat`, and the single-threaded
event loop becomes an explicit step function over an event type, where each
synchronous run-to-completion segment of a JS handler is one atomic step and
each `await` boundary splits a handler into separate steps.
-/

namespace TWYS

/-! ## Spatial position (the `{x, y, z}` literals of `personalities.js`) -/

structure SpatialPos where
  x : ℚ
  y : ℚ
  z : ℚ
deriving DecidableEq

/-! ## The `Personality` class of `personalities.js`

Fields mirror the constructor.  `voiceId` comes from a `process.env`
variable, hence `Option String` (absent environment variable = `none`).
-/

structure Personality where
  id : String
  name : String
  voiceId : Option String
  position : SpatialPos
  systemPrompt : String
  conversationHistory : List String
  maxHistoryLength : Nat
  maxTotalChars : Nat
  isProcessing : Bool
  pendingTranscriptions : List String
  numWords : Nat
deriving DecidableEq

/-- The `while (totalLength > this.maxTotalChars && this.conversationHistory.length > 2)`
loop of `Personality.updateHistory`: repeatedly `splice(0, 2)` (drop the two
oldest entries) while the `join("\n")` length exceeds the character budget
and more than two entries remain. -/
def trimChars (maxChars : Nat) (h : List String) : List String :=
  if hc : (String.intercalate "\n" h).length > maxChars ∧ h.length > 2 then
    trimChars maxChars (h.drop 2)
  else h
termination_by h.length
decreasing_by
  simp only [List.length_drop]
  omega

/-- `Personality.updateHistory(newMessage)` from `personalities.js`: push the
message; if the entry count exceeds `maxHistoryLength * 2`, `splice(0, 2)`
once; then run the character-budget trimming loop. -/
def Personality.updateHistory (p : Personality) (newMessage : String) : Personality :=
  let h1 := p.conversationHistory ++ [newMessage]
  let h2 := if h1.length > p.maxHistoryLength * 2 then h1.drop 2 else h1
  { p with conversationHistory := trimChars p.maxTotalChars h2 }

/-- `Personality.getFullPrompt()` from `personalities.js`. -/
def Personality.getFullPrompt (p : Personality) : String :=
  p.systemPrompt ++ "\n\nCurrent conversation:\n" ++ String.intercalate "\n" p.conversationHistory

/-- `Personality.addPendingTranscription(transcription)` from
`personalities.js`: push, and report the `isProcessing` flag. -/
def Personality.addPendingTranscription (p : Personality) (t : String) : Personality × Bool :=
  ({ p with pendingTranscriptions := p.pendingTranscriptions ++ [t] }, p.isProcessing)

/-- `Personality.getAndClearPendingTranscriptions()` from `personalities.js`:
snapshot the pending list, clear it, and return the snapshot joined with a
single space. -/
def Personality.getAndClearPendingTranscriptions (p : Personality) : String × Personality :=
  (String.intercalate " " p.pendingTranscriptions, { p with pendingTranscriptions := [] })

/-! ## The three configured personalities

The system prompts are the exact string literals of `personalities.js`
(apostrophes written as the escape `\x27`).  Voice ids come from the
environment, so the definitions are parametrised by them.
-/

def advisorPersonality (v : Option String) : Personality :=
  { id := "advisor"
    name := "The Advisor"
    voiceId := v
    position := { x := 0, y := 0, z := 1 }
    systemPrompt := "You are a wise advisor who guides the user through their conversation. Your responses are delivered while they are talking. You should:\n1. Keep responses VERY brief (maximum 5 words)\n2. Provide strategic suggestions for what to say next\n3. Maintain a calm, thoughtful demeanor\n4. Focus on helping the user achieve their conversational goals\n5. Your responses will be read out loud, so respond with only the words you want to say, and DO NOT include any special characters\n!!!DO NOT RESPOND WITH MORE THAN 5 WORDS!!!"
    conversationHistory := []
    maxHistoryLength := 10
    maxTotalChars := 2000
    isProcessing := false
    pendingTranscriptions := []
    numWords := 5 }

def criticPersonality (v : Option String) : Personality :=
  { id := "critic"
    name := "The Critic"
    voiceId := v
    position := { x := -1, y := 0, z := 0.5 }
    systemPrompt := "You are a critical voice that challenges the user\x27s thoughts. Your responses come while they are talking. You should:\n1. Keep responses VERY brief (maximum 5 words)\n2. Point out flaws in their reasoning\n3. Suggest alternative perspectives\n4. Be provocative but not hostile\n5. Help them think more deeply\n6. Your responses will be read out loud, so respond with only the words you want to say, and DO NOT include any special characters\n!!!DO NOT RESPOND WITH MORE THAN 5 WORDS!!!"
    conversationHistory := []
    maxHistoryLength := 10
    maxTotalChars := 2000
    isProcessing := false
    pendingTranscriptions := []
    numWords := 5 }

def supporterPersonality (v : Option String) : Personality :=
  { id := "supporter"
    name := "The Supporter"
    voiceId := v
    position := { x := 1, y := 0, z := 0.5 }
    systemPrompt := "You are an encouraging supporter who boosts the user\x27s confidence. Your responses come while they are talking. You should:\n1. Keep responses VERY brief (maximum 5 words)\n2. Offer positive reinforcement\n3. Highlight their good points\n4. Add enthusiastic energy\n5. Help them feel more confident\n6. Your responses will be read out loud, so respond with only the words you want to say, and DO NOT include any special characters\n!!!DO NOT RESPOND WITH MORE THAN 5 WORDS!!!"
    conversationHistory := []
    maxHistoryLength := 10
    maxTotalChars := 2000
    isProcessing := false
    pendingTranscriptions := []
    numWords := 5 }

/-- The `personalities` map exported by `personalities.js`, as a lookup
function (keys `advisor`, `critic`, `supporter`; anything else is absent,
i.e. `undefined`). -/
def personalities (v1 v2 v3 : Option String) : String → Option Personality :=
  fun pid =>
    if pid = "advisor" then some (advisorPersonality v1)
    else if pid = "critic" then some (criticPersonality v2)
    else if pid = "supporter" then some (supporterPersonality v3)
    else none

/-! ## Lemmas about history trimming -/

theorem trimChars_length_le (c : Nat) (h : List String) :
    (trimChars c h).length ≤ h.length := by
  have aux : ∀ (n : Nat) (h : List String), h.length ≤ n →
      (trimChars c h).length ≤ h.length := by
    intro n
    induction n with
    | zero =>
      intro h hh
      rw [trimChars]
      split
      · rename_i hc
        omega
      · exact le_rfl
    | succ n ih =>
      intro h hh
      rw [trimChars]
      split
      · rename_i hc
        have hd : (h.drop 2).length ≤ n := by
          simp only [List.length_drop]
          omega
        have := ih (h.drop 2) hd
        simp only [List.length_drop] at this
        omega
      · exact le_rfl
  exact aux h.length h le_rfl

theorem trimChars_chars (c : Nat) (h : List String) :
    (String.intercalate "\n" (trimChars c h)).length ≤ c ∨ (trimChars c h).length ≤ 2 := by
  have aux : ∀ (n : Nat) (h : List String), h.length ≤ n →
      (String.intercalate "\n" (trimChars c h)).length ≤ c ∨ (trimChars c h).length ≤ 2 := by
    intro n
    induction n with
    | zero =>
      intro h hh
      rw [trimChars]
      split
      · rename_i hc
        omega
      · rename_i hc
        right
        omega
    | succ n ih =>
      intro h hh
      rw [trimChars]
      split
      · rename_i hc
        exact ih (h.drop 2) (by simp only [List.length_drop]; omega)
      · rename_i hc
        rw [not_and_or] at hc
        rcases hc with hc | hc
        · left
          omega
        · right
          omega
  exact aux h.length h le_rfl

/-- A fold preserves any invariant preserved by each step. -/
theorem foldl_preserves {α β : Type} (P : α → Prop) (f : α → β → α) :
    ∀ (l : List β) (init : α), P init → (∀ a b, P a → P (f a b)) → P (l.foldl f init) := by
  intro l
  induction l with
  | nil => intro init h0 _; exact h0
  | cons b l ih =>
    intro init h0 hstep
    exact ih (f init b) (hstep init b h0) hstep

theorem updateHistory_preserves (L C : Nat) (p : Personality) (m : String)
    (hL : p.maxHistoryLength = L) (hC : p.maxTotalChars = C)
    (hlen : p.conversationHistory.length ≤ 2 * L) :
    (p.updateHistory m).maxHistoryLength = L ∧ (p.updateHistory m).maxTotalChars = C ∧
    (p.updateHistory m).conversationHistory.length ≤ 2 * L ∧
    ((String.intercalate "\n" (p.updateHistory m).conversationHistory).length ≤ C ∨
      (p.updateHistory m).conversationHistory.length ≤ 2) := by
  subst hL
  subst hC
  have h2 : (if (p.conversationHistory ++ [m]).length > p.maxHistoryLength * 2 then
      (p.conversationHistory ++ [m]).drop 2 else (p.conversationHistory ++ [m])).length ≤
      2 * p.maxHistoryLength := by
    split
    · rename_i hgt
      simp only [List.length_drop, List.length_append, List.length_singleton] at *
      omega
    · rename_i hle
      simp only [List.length_append, List.length_singleton] at *
      omega
  refine ⟨by simp only [Personality.updateHistory], by simp only [Personality.updateHistory], ?_, ?_⟩
  · simp only [Personality.updateHistory]
    exact le_trans (trimChars_length_le _ _) h2
  · simp only [Personality.updateHistory]
    exact trimChars_chars p.maxTotalChars
      (if (p.conversationHistory ++ [m]).length > p.maxHistoryLength * 2 then
        (p.conversationHistory ++ [m]).drop 2 else (p.conversationHistory ++ [m]))

/-- C4: after any sequence of `updateHistory` calls starting from the empty
history, the history length stays within `2 * maxHistoryLength`, and the
newline-joined text stays within `maxTotalChars` unless trimming has stopped
because at most two entries remain (the character loop stops once the entry
count is not greater than 2, even if still over the character budget). -/
theorem c4_history_bounds (L C : Nat) (msgs : List String) :
    (msgs.foldl Personality.updateHistory
      { advisorPersonality none with maxHistoryLength := L, maxTotalChars := C
      }).conversationHistory.length ≤ 2 * L ∧
    ((String.intercalate "\n" (msgs.foldl Personality.updateHistory
        { advisorPersonality none with maxHistoryLength := L, maxTotalChars := C
        }).conversationHistory).length ≤ C ∨
      (msgs.foldl Personality.updateHistory
        { advisorPersonality none with maxHistoryLength := L, maxTotalChars := C
        }).conversationHistory.length ≤ 2) := by
  have main := foldl_preserves
    (fun p => p.maxHistoryLength = L ∧ p.maxTotalChars = C ∧
      p.conversationHistory.length ≤ 2 * L ∧
      ((String.intercalate "\n" p.conversationHistory).length ≤ C ∨
        p.conversationHistory.length ≤ 2))
    Personality.updateHistory msgs
    { advisorPersonality none with maxHistoryLength := L, maxTotalChars := C }
    (by
      refine ⟨rfl, rfl, ?_, ?_⟩
      · simp [advisorPersonality]
      · right; simp [advisorPersonality])
    (by
      intro p m hp
      obtain ⟨hL, hC, hlen, _⟩ := hp
      exact updateHistory_preserves L C p m hL hC hlen)
  exact ⟨main.2.2.1, main.2.2.2⟩

/-! ## The `/query-llama` handler of `app.js`, single-personality mode

The handler body runs synchronously from `req.body` destructuring up to the
`await queryLlama(fullPrompt)` call; the continuation after that await (the
`updateHistory(response)` / `res.json` on success, or the `finally` and the
outer `catch` on failure) is a second synchronous segment.  Accordingly the
machine has two events: `arrive` (one request reaches the handler and runs
to its first await or to an early return) and `complete` (the awaited
generation call settles with a result or an error).

Ghost fields (absent from the source, recorded for specification only):
`accepted` logs every transcription that was pushed onto
`pendingTranscriptions`; `dispatchedBatches` logs, per dispatched
generation, the pending list drained into it; `promptLog` logs the
`fullTranscription` string of each dispatched generation; `inFlight` counts
generation calls currently awaited; `responses` logs the HTTP replies.
-/

inductive SResponse where
  /-- `res.json({ response: "" })` for a missing or blank transcription. -/
  | emptyResponse : SResponse
  /-- `res.json({ queued: true, personalityId })`. -/
  | queued (personalityId : String) : SResponse
  /-- `res.json({ response, personalityId, position, voiceId })`. -/
  | dispatched (response : String) (personalityId : String) : SResponse
  /-- `res.status(500).json({ error: error.message })`. -/
  | error (message : String) : SResponse
deriving DecidableEq

structure SState where
  p : Personality
  inFlight : Nat
  accepted : List String
  dispatchedBatches : List (List String)
  promptLog : List String
  responses : List SResponse
deriving DecidableEq

inductive SEvent where
  | arrive (transcription : String) : SEvent
  | complete (result : Except String String) : SEvent

/-- The guard `!transcription || transcription.trim() === ''` of the
handler: the transcription is empty or whitespace-only.  (JS `trim`
removes leading and trailing whitespace, so it yields the empty string
exactly when every character is whitespace.) -/
def isBlank (t : String) : Bool :=
  t.data.all (fun c => c.isWhitespace)

/-- One step of the `/query-llama` handler (single-personality mode, where
the selected personality is always the same object).  Mirrors `app.js`:
blank transcription short-circuits; `addPendingTranscription` then the
`isAlreadyProcessing` check; on dispatch, `isProcessing = true`,
`getAndClearPendingTranscriptions`, `updateHistory(fullTranscription)`, and
the generation call is issued; on completion, `updateHistory(response)` and
the reply on success, the `finally` clearing `isProcessing` in both cases. -/
def sstep (s : SState) : SEvent → SState
  | .arrive t =>
    if isBlank t then
      { s with responses := s.responses ++ [SResponse.emptyResponse] }
    else
      let added := s.p.addPendingTranscription t
      let p1 := added.1
      if added.2 then
        { s with p := p1, accepted := s.accepted ++ [t],
                 responses := s.responses ++ [SResponse.queued p1.id] }
      else
        let p2 := { p1 with isProcessing := true }
        let drained := p2.getAndClearPendingTranscriptions
        let p3 := drained.2.updateHistory drained.1
        { s with p := p3, accepted := s.accepted ++ [t],
                 inFlight := s.inFlight + 1,
                 dispatchedBatches := s.dispatchedBatches ++ [p2.pendingTranscriptions],
                 promptLog := s.promptLog ++ [drained.1] }
  | .complete r =>
    if s.inFlight = 0 then s
    else
      match r with
      | .ok resp =>
        let p1 := s.p.updateHistory resp
        { s with p := { p1 with isProcessing := false },
                 inFlight := s.inFlight - 1,
                 responses := s.responses ++ [SResponse.dispatched resp s.p.id] }
      | .error e =>
        { s with p := { s.p with isProcessing := false },
                 inFlight := s.inFlight - 1,
                 responses := s.responses ++ [SResponse.error e] }

/-- Server start-of-process state: the advisor personality as constructed,
no request in flight. -/
def initialSState (v : Option String) : SState :=
  { p := advisorPersonality v
    inFlight := 0
    accepted := []
    dispatchedBatches := []
    promptLog := []
    responses := [] }

def runServer (v : Option String) (events : List SEvent) : SState :=
  events.foldl sstep (initialSState v)

/-- The inductive invariant of the `/query-llama` machine: the drained
batches plus the still-pending inputs are exactly the accepted inputs in
submission order; every dispatched prompt is the space-join of its batch;
and a generation is awaited exactly while `isProcessing` is set. -/
def SInv (s : SState) : Prop :=
  s.dispatchedBatches.flatten ++ s.p.pendingTranscriptions = s.accepted
  ∧ s.promptLog = s.dispatchedBatches.map (String.intercalate " ")
  ∧ s.inFlight = (if s.p.isProcessing then 1 else 0)

theorem sstep_inv (s : SState) (e : SEvent) (h : SInv s) : SInv (sstep s e) := by
  obtain ⟨h1, h2, h3⟩ := h
  cases e with
  | arrive t =>
    by_cases ht : isBlank t = true
    · simp only [SInv, sstep, ht, if_true]
      exact ⟨h1, h2, h3⟩
    · by_cases hb : s.p.isProcessing = true
      · simp only [SInv, sstep, if_neg ht, Personality.addPendingTranscription, hb, if_true]
        refine ⟨?_, h2, ?_⟩
        · rw [← List.append_assoc, h1]
        · rw [h3, hb]
          simp
      · simp only [SInv, sstep, if_neg ht, Personality.addPendingTranscription, if_neg hb,
          Personality.getAndClearPendingTranscriptions, Personality.updateHistory]
        refine ⟨?_, ?_, ?_⟩
        · simp only [List.flatten_append, List.flatten_cons, List.flatten_nil,
            List.append_nil]
          rw [← List.append_assoc, h1]
        · rw [h2, List.map_append]
          rfl
        · rw [if_neg hb] at h3
          simp [h3]
  | complete r =>
    by_cases hz : s.inFlight = 0
    · simp only [SInv, sstep, hz, if_true]
      exact ⟨h1, h2, hz ▸ h3⟩
    · have hb : s.p.isProcessing = true := by
        by_contra hnb
        rw [if_neg hnb] at h3
        exact hz h3
      rw [hb, if_pos rfl] at h3
      cases r with
      | ok resp =>
        simp only [SInv, sstep, if_neg hz, Personality.updateHistory]
        exact ⟨h1, h2, by simp [h3]⟩
      | error e =>
        simp only [SInv, sstep, if_neg hz]
        exact ⟨h1, h2, by simp [h3]⟩

theorem runServer_inv (v : Option String) (events : List SEvent) : SInv (runServer v events) := by
  refine foldl_preserves SInv sstep events (initialSState v) ?_ ?_
  · refine ⟨rfl, rfl, ?_⟩
    simp [initialSState, advisorPersonality]
  · intro a b ha
    exact sstep_inv a b ha

/-- C3: over any event sequence, every dispatched prompt is the space-joined
concatenation of the inputs drained into it in submission order, the drained
batches plus the still-pending inputs partition the accepted inputs (so no
input text occurs in more than one dispatched prompt), and a `submit` that
finds the participant idle drains everything: it clears the pending list and
dispatches the prompt `intercalate " " (pending ++ [t])`. -/
theorem c3_batch_drain (v : Option String) (events : List SEvent) :
    ((runServer v events).promptLog
        = (runServer v events).dispatchedBatches.map (String.intercalate " ")
      ∧ (runServer v events).dispatchedBatches.flatten
          ++ (runServer v events).p.pendingTranscriptions
        = (runServer v events).accepted)
    ∧ ∀ (t : String), isBlank t = false → (runServer v events).p.isProcessing = false →
        (sstep (runServer v events) (SEvent.arrive t)).p.pendingTranscriptions = []
        ∧ (sstep (runServer v events) (SEvent.arrive t)).promptLog
          = (runServer v events).promptLog
            ++ [String.intercalate " " ((runServer v events).p.pendingTranscriptions ++ [t])] := by
  have hinv := runServer_inv v events
  refine ⟨⟨hinv.2.1, hinv.1⟩, ?_⟩
  intro t ht hidle
  simp only [sstep, ht, Bool.false_eq_true, if_false, Personality.addPendingTranscription,
    hidle, Personality.getAndClearPendingTranscriptions, Personality.updateHistory]
  simp

/-- Witness for C3 at a concrete run: input "a" is dispatched, the
generation completes, then input "b" arrives and drains into a fresh
prompt. -/
theorem c3_batch_drain_witness :
    (sstep (runServer none [SEvent.arrive "a", SEvent.complete (Except.ok "r")])
        (SEvent.arrive "b")).p.pendingTranscriptions = []
    ∧ (sstep (runServer none [SEvent.arrive "a", SEvent.complete (Except.ok "r")])
        (SEvent.arrive "b")).promptLog
      = (runServer none [SEvent.arrive "a", SEvent.complete (Except.ok "r")]).promptLog
        ++ [String.intercalate " "
            ((runServer none [SEvent.arrive "a", SEvent.complete (Except.ok "r")]).p.pendingTranscriptions
              ++ ["b"])] :=
  (c3_batch_drain none [SEvent.arrive "a", SEvent.complete (Except.ok "r")]).2 "b"
    (by decide) (by decide)

/-- C5: over any interleaving of request arrivals and generation
completions (suspension happens only at the generation call), at most one
generation call is in flight at any reachable state, and no accepted input
is ever lost: the drained batches plus the still-pending inputs are exactly
the accepted inputs, so every input is folded into some dispatched prompt or
is still pending. -/
theorem c5_serialized_no_loss (v : Option String) (events : List SEvent) :
    (runServer v events).inFlight ≤ 1
    ∧ (runServer v events).dispatchedBatches.flatten
        ++ (runServer v events).p.pendingTranscriptions
      = (runServer v events).accepted := by
  have hinv := runServer_inv v events
  refine ⟨?_, hinv.1⟩
  rw [hinv.2.2]
  split <;> omega

/-- C9: if a generation call is in flight and the external generation
collaborator fails, the handler surfaces a generic 500 failure to the
caller, appends nothing to the history or the pending list (no partial
result is queued), and the `finally` block resets `isProcessing`, so the
participant returns to idle. -/
theorem c9_failure_releases_busy (s : SState) (e : String) (h : s.inFlight = 1) :
    (sstep s (SEvent.complete (Except.error e))).p.isProcessing = false
    ∧ (sstep s (SEvent.complete (Except.error e))).inFlight = 0
    ∧ (sstep s (SEvent.complete (Except.error e))).p.conversationHistory
      = s.p.conversationHistory
    ∧ (sstep s (SEvent.complete (Except.error e))).p.pendingTranscriptions
      = s.p.pendingTranscriptions
    ∧ (sstep s (SEvent.complete (Except.error e))).dispatchedBatches = s.dispatchedBatches
    ∧ (sstep s (SEvent.complete (Except.error e))).responses
      = s.responses ++ [SResponse.error e] := by
  simp only [sstep, h]
  simp

/-- Witness for C9: the advisor dispatches input "a", then the generation
fails with message "boom". -/
theorem c9_failure_releases_busy_witness :
    (sstep (runServer none [SEvent.arrive "a"])
      (SEvent.complete (Except.error "boom"))).p.isProcessing = false
    ∧ (sstep (runServer none [SEvent.arrive "a"])
        (SEvent.complete (Except.error "boom"))).inFlight = 0
    ∧ (sstep (runServer none [SEvent.arrive "a"])
        (SEvent.complete (Except.error "boom"))).p.conversationHistory
      = (runServer none [SEvent.arrive "a"]).p.conversationHistory
    ∧ (sstep (runServer none [SEvent.arrive "a"])
        (SEvent.complete (Except.error "boom"))).p.pendingTranscriptions
      = (runServer none [SEvent.arrive "a"]).p.pendingTranscriptions
    ∧ (sstep (runServer none [SEvent.arrive "a"])
        (SEvent.complete (Except.error "boom"))).dispatchedBatches
      = (runServer none [SEvent.arrive "a"]).dispatchedBatches
    ∧ (sstep (runServer none [SEvent.arrive "a"])
        (SEvent.complete (Except.error "boom"))).responses
      = (runServer none [SEvent.arrive "a"]).responses ++ [SResponse.error "boom"] :=
  c9_failure_releases_busy (runServer none [SEvent.arrive "a"]) "boom" (by decide)

/-! ## The `/transcribe` handler of `app.js`

`req.body.audio` is an optional base64 string; the handler writes a
temporary upload file, calls the external transcription collaborator,
deletes the file, and replies `{transcription}`.  A missing `audio` field
throws `"No audio data received"` before any file is written, and the
single `catch` block replies with HTTP status 500.  The mutable server
state touched by the handler is the uploads directory, modelled as the list
of file names present. -/

structure TranscribeOutcome where
  status : Nat
  transcription : Option String
  uploads : List String
deriving DecidableEq

/-- The `/transcribe` handler: `audio?` is the (optional) `audio` field of
the request body, `externalResult` the outcome of the external Whisper
call, `uploads` the files in the uploads directory, and `fname` the
timestamped name the handler would give the temporary file. -/
def transcribeHandler (audio? : Option String) (externalResult : Except String String)
    (uploads : List String) (fname : String) : TranscribeOutcome :=
  match audio? with
  | none => { status := 500, transcription := none, uploads := uploads }
  | some _ =>
    let uploads1 := uploads ++ [fname]
    match externalResult with
    | .ok t => { status := 200, transcription := some t, uploads := uploads1.erase fname }
    | .error _ => { status := 500, transcription := none, uploads := uploads1 }

/-- Counterexample for C8: a POST to `/transcribe` with no `audio` field is
answered with HTTP status 500, not 400 as the claim states. -/
theorem c8_counterexample :
    (transcribeHandler none (Except.ok "t") [] "audio_1.wav").status = 500
    ∧ ¬ (transcribeHandler none (Except.ok "t") [] "audio_1.wav").status = 400 := by
  decide

/-- C8 (amended): a POST to `/transcribe` whose body is missing the audio
field fails with HTTP status 500 (the handler throws before any work and
the catch-all replies 500), no transcription is produced, and no state is
mutated (no upload file is written). -/
theorem c8_missing_audio_500 (externalResult : Except String String)
    (uploads : List String) (fname : String) :
    transcribeHandler none externalResult uploads fname
      = { status := 500, transcription := none, uploads := uploads } := by
  rfl

/-! ## `PersonalityManager.getPersonality` and single-mode selection -/

/-- `PersonalityManager.getPersonality(id)` from `app.js`:
`personalities[id] || personalities['advisor']` (a `Personality` object is
always truthy, so the fallback fires exactly when the key is absent). -/
def getPersonality (v1 v2 v3 : Option String) (pid : String) : Personality :=
  (personalities v1 v2 v3 pid).getD (advisorPersonality v1)

/-- The single-personality-mode selection of the `/query-llama` handler:
`PersonalityManager.currentPersonality || PersonalityManager.getPersonality('advisor')`.
`currentPersonality` is initialised to `null` and only ever set by
`setPersonality`, so its value is an `Option Personality`. -/
def selectSinglePersonality (current : Option Personality)
    (v1 v2 v3 : Option String) : Personality :=
  current.getD (getPersonality v1 v2 v3 "advisor")

/-- C10: for every id absent from the personalities map, `getPersonality`
returns the advisor personality rather than failing; consequently in
single-personality mode, with no current personality configured, the
request always targets the advisor. -/
theorem c10_default_advisor (v1 v2 v3 : Option String) (pid : String)
    (h : personalities v1 v2 v3 pid = none) :
    getPersonality v1 v2 v3 pid = advisorPersonality v1
    ∧ selectSinglePersonality none v1 v2 v3 = advisorPersonality v1 := by
  constructor
  · rw [getPersonality, h]
    rfl
  · rfl

/-- Witness for C10 at the concrete absent id "ghost". -/
theorem c10_default_advisor_witness :
    getPersonality none none none "ghost" = advisorPersonality none
    ∧ selectSinglePersonality none none none none = advisorPersonality none :=
  c10_default_advisor none none none "ghost" (by decide)

/-! ## The `/query-llama` handler in multiple-personality mode

`PERSONALITY_MODE === 'multiple'`: the handler first calls
`PersonalityManager.getNextPersonality()`, which reads
`activePersonalities[currentPersonalityIndex]` and then advances
`currentPersonalityIndex = (currentPersonalityIndex + 1) % activePersonalities.length`
— note this happens before the busy check, so it happens for queued
submissions too.  The rest is as in single mode, but against the selected
personality.  `targets` is a ghost log of the personality id selected for
each accepted (non-blank) submission; `responses` logs the HTTP replies. -/

def activePersonalityIds : List String := ["advisor", "critic", "supporter"]

structure MState where
  advisor : Personality
  critic : Personality
  supporter : Personality
  currentPersonalityIndex : Nat
  targets : List String
  responses : List SResponse
deriving DecidableEq

/-- Read a personality object of the `personalities` map by id (only ever
called with one of the three active ids; the final branch is the advisor). -/
def MState.getP (m : MState) (pid : String) : Personality :=
  if pid = "critic" then m.critic
  else if pid = "supporter" then m.supporter
  else m.advisor

/-- Write back the (mutable, shared) personality object with id `pid`. -/
def MState.setP (m : MState) (pid : String) (p : Personality) : MState :=
  if pid = "critic" then { m with critic := p }
  else if pid = "supporter" then { m with supporter := p }
  else { m with advisor := p }

inductive MEvent where
  | arrive (transcription : String) : MEvent
  | completeFor (pid : String) (result : Except String String) : MEvent

/-- One step of the `/query-llama` handler in multiple-personality mode. -/
def mstep (m : MState) : MEvent → MState
  | .arrive t =>
    if isBlank t then
      { m with responses := m.responses ++ [SResponse.emptyResponse] }
    else
      let pid := activePersonalityIds.getD m.currentPersonalityIndex "advisor"
      let m1 := { m with
        currentPersonalityIndex :=
          (m.currentPersonalityIndex + 1) % activePersonalityIds.length }
      let p := m1.getP pid
      let added := p.addPendingTranscription t
      let m2 := { m1.setP pid added.1 with targets := m1.targets ++ [pid] }
      if added.2 then
        { m2 with responses := m2.responses ++ [SResponse.queued pid] }
      else
        let p2 := { added.1 with isProcessing := true }
        let drained := p2.getAndClearPendingTranscriptions
        let p3 := drained.2.updateHistory drained.1
        m2.setP pid p3
  | .completeFor pid r =>
    let p := m.getP pid
    if p.isProcessing then
      match r with
      | .ok resp =>
        { m.setP pid { p.updateHistory resp with isProcessing := false } with
          responses := m.responses ++ [SResponse.dispatched resp pid] }
      | .error e =>
        { m.setP pid { p with isProcessing := false } with
          responses := m.responses ++ [SResponse.error e] }
    else m

/-- Server start-of-process state in multiple-personality mode (voice-id
environment variables absent). -/
def initialMState : MState :=
  { advisor := advisorPersonality none
    critic := criticPersonality none
    supporter := supporterPersonality none
    currentPersonalityIndex := 0
    targets := []
    responses := [] }

/-- Four submissions with the first personality still busy at the fourth:
the fourth submission is merely queued, yet the selection index advances. -/
def c6Trace : List MEvent :=
  [MEvent.arrive "a", MEvent.arrive "b", MEvent.arrive "c", MEvent.arrive "d"]

/-- Counterexample for C6: the claim says a submission that is merely
queued (because its participant is busy) does not advance the selection
index.  In this run the fourth submission targets the still-busy advisor
and is answered `{queued: true, personalityId: "advisor"}`, yet the index
has advanced to 1 — `getNextPersonality` advances the index before the busy
check, so the index would be 0 only if the claim held. -/
theorem c6_counterexample :
    (c6Trace.foldl mstep initialMState).responses.getLast?
      = some (SResponse.queued "advisor")
    ∧ (c6Trace.foldl mstep initialMState).currentPersonalityIndex = 1
    ∧ ¬ (c6Trace.foldl mstep initialMState).currentPersonalityIndex = 0 := by
  decide

/-- Four sequential, non-overlapping submissions: each generation completes
before the next submission arrives. -/
def c6SequentialTrace : List MEvent :=
  [MEvent.arrive "a", MEvent.completeFor "advisor" (Except.ok "r1"),
   MEvent.arrive "b", MEvent.completeFor "critic" (Except.ok "r2"),
   MEvent.arrive "c", MEvent.completeFor "supporter" (Except.ok "r3"),
   MEvent.arrive "d"]

/-- C6 (amended): in multiple-personality mode the selection index advances
on every submission with a non-blank transcription — whether the submission
dispatches or is merely queued because its participant is busy — and with 3
participants, 4 sequential non-overlapping submissions visit the
participants in order advisor, critic, supporter, advisor (indices
0, 1, 2, 0). -/
theorem c6_index_advances_always :
    (∀ (m : MState) (t : String), isBlank t = false →
      (mstep m (MEvent.arrive t)).currentPersonalityIndex
        = (m.currentPersonalityIndex + 1) % 3)
    ∧ (c6SequentialTrace.foldl mstep initialMState).targets
      = ["advisor", "critic", "supporter", "advisor"] := by
  constructor
  · intro m t ht
    simp only [mstep, ht, Bool.false_eq_true, if_false, MState.setP]
    split_ifs <;> simp [activePersonalityIds]
  · decide

/-- Witness for C6 (amended) at the initial state and input "x". -/
theorem c6_index_advances_always_witness :
    (mstep initialMState (MEvent.arrive "x")).currentPersonalityIndex
      = (initialMState.currentPersonalityIndex + 1) % 3 :=
  c6_index_advances_always.1 initialMState "x" (by decide)

/-! ## The client playback state machine of `public/js/main.js`

The client is single-threaded and event-driven.  Each synchronous
run-to-completion segment of a handler is one atomic step; each `await`
splits a handler into separate steps, delivered later as completion events:

* `speechStart` / `speechEnd` — the VAD callbacks `onSpeechStart` /
  `onSpeechEnd` (their synchronous prefixes);
* `decodeDone i` — the continuation of `playAudio` after
  `await blob.arrayBuffer()` / `await audioContext.decodeAudioData(...)`
  resolves for the i-th in-flight decode (decodes may resolve in any
  order);
* `initFetch ok` — the `fetch('/last-audio').then(...)` callback of the
  first-speech branch runs up to its own `await response.blob()` (when
  `ok`) or to completion (when not);
* `initBlobReady` — the rest of that callback after `response.blob()`
  resolves: `playAudio(bootstrap unit)` then `isFirstSpeech = false`;
* `enqueue u` — `processUserSpeech` (triggered by some earlier
  `onSpeechEnd`) finishes and pushes a synthesized unit onto `audioQueue`;
* `sourceEnded sid` — the `onended` callback of a started buffer source;
* `tick` — passage of one unit of time (advances the audible position of
  every playing source; touches nothing else).

An `AudioBufferSourceNode` is identified by a fresh `Nat`.  `playing` holds
the sources that were started and neither stopped nor ended, with the
offset they were started at and the time they have been audible.
`startedSids` records which sources were ever started: `stop()` on a
never-started source throws, and in `onSpeechEnd` that throw skips the
`currentAudioElement = null` assignment (it is inside the `try`), while in
`playAudio` the assignment sits after the `catch` and always runs.

The `audioContext.state === 'suspended'` resume await at the top of
`playAudio` is ignored (the context is running after initialisation), and
panner bookkeeping is omitted: it touches no state the claims mention. -/

structure AudioUnit where
  blob : Nat
  voiceId : String
  position : Option SpatialPos
  timestamp : Nat
deriving DecidableEq

structure PlayingSource where
  sid : Nat
  unit : AudioUnit
  startOffset : Nat
  elapsed : Nat
deriving DecidableEq

structure ClientState where
  isCurrentlySpeaking : Bool
  isFirstSpeech : Bool
  audioQueue : List AudioUnit
  currentAudioData : Option AudioUnit
  currentAudioElement : Option Nat
  currentPlaybackTime : Nat
  pendingDecodes : List (Nat × AudioUnit)
  startedSids : List Nat
  playing : List PlayingSource
  pendingInitFetch : Nat
  pendingInitBlob : Nat
  pipelineInFlight : Nat
  nextSid : Nat
  clock : Nat
deriving DecidableEq

def initialClientState : ClientState :=
  { isCurrentlySpeaking := false
    isFirstSpeech := true
    audioQueue := []
    currentAudioData := none
    currentAudioElement := none
    currentPlaybackTime := 0
    pendingDecodes := []
    startedSids := []
    playing := []
    pendingInitFetch := 0
    pendingInitBlob := 0
    pipelineInFlight := 0
    nextSid := 0
    clock := 0 }

/-- The unit played by the first-speech branch of `onSpeechStart`:
`{blob, voiceId: 'advisor', position: {x: 0, y: 0, z: 1}}` (no timestamp
field, i.e. `undefined`, modelled as 0 = falsy). -/
def bootstrapUnit : AudioUnit :=
  { blob := 0, voiceId := "advisor", position := some { x := 0, y := 0, z := 1 }
    timestamp := 0 }

/-- The `if (currentAudioElement) { try { stop() } catch {} currentAudioElement = null }`
block at the top of `playAudio`: the element is always cleared; the source
leaves `playing` when it was actually playing (`stop()` on a never-started
source throws into the catch; on an ended source it is a no-op). -/
def stopForPlayAudio (s : ClientState) : ClientState :=
  match s.currentAudioElement with
  | none => s
  | some sid =>
    { s with playing := s.playing.filter (fun src => src.sid != sid)
             currentAudioElement := none }

/-- The stop block of `onSpeechEnd`: here `currentAudioElement = null` sits
inside the `try` after `stop()`, so when `stop()` throws (source never
started) the element is not cleared. -/
def stopForSpeechEnd (s : ClientState) : ClientState :=
  match s.currentAudioElement with
  | none => s
  | some sid =>
    if s.startedSids.contains sid then
      { s with playing := s.playing.filter (fun src => src.sid != sid)
               currentAudioElement := none }
    else s

/-- The synchronous prefix of `playAudio(data)`, up to the decode awaits:
guard on missing position; `currentAudioData = {...data, timestamp:
timestamp || Date.now()}` (a fresh object — so the later
`currentAudioData !== data` check is always true and `currentPlaybackTime`
is reset to 0 unconditionally); stop any previous element; register the
decode of `data`. -/
def playAudioSync (s : ClientState) (d : AudioUnit) : ClientState :=
  if d.position.isNone then s
  else
    let ts := if d.timestamp = 0 then s.clock else d.timestamp
    let s1 := { s with currentAudioData := some { d with timestamp := ts } }
    let s2 := stopForPlayAudio s1
    { s2 with currentPlaybackTime := 0
              pendingDecodes := s2.pendingDecodes ++ [(s2.nextSid, d)]
              nextSid := s2.nextSid + 1 }

inductive CEvent where
  | speechStart : CEvent
  | speechEnd : CEvent
  | decodeDone (i : Nat) : CEvent
  | sourceEnded (sid : Nat) : CEvent
  | enqueue (u : AudioUnit) : CEvent
  | initFetch (ok : Bool) : CEvent
  | initBlobReady : CEvent
  | tick : CEvent
deriving DecidableEq

/-- One atomic step of the client event loop. -/
def clientStep (s : ClientState) : CEvent → ClientState
  | .speechStart =>
    let s := { s with isCurrentlySpeaking := true }
    if s.isFirstSpeech then
      { s with pendingInitFetch := s.pendingInitFetch + 1 }
    else
      match s.audioQueue with
      | u :: rest =>
        playAudioSync { s with currentAudioData := none, audioQueue := rest } u
      | [] =>
        match s.currentAudioData with
        | some d => playAudioSync s d
        | none => s
  | .speechEnd =>
    let s := { s with isCurrentlySpeaking := false }
    let s := stopForSpeechEnd s
    { s with pipelineInFlight := s.pipelineInFlight + 1 }
  | .decodeDone i =>
    match s.pendingDecodes[i]? with
    | none => s
    | some (sid, d) =>
      let s1 := { s with pendingDecodes := s.pendingDecodes.eraseIdx i }
      let s2 :=
        if s1.isCurrentlySpeaking then
          { s1 with
            playing := s1.playing
              ++ [{ sid := sid, unit := d, startOffset := s1.currentPlaybackTime,
                    elapsed := 0 }]
            startedSids := s1.startedSids ++ [sid] }
        else s1
      { s2 with currentAudioElement := some sid }
  | .sourceEnded sid =>
    if s.playing.any (fun src => src.sid == sid) then
      let s1 := { s with playing := s.playing.filter (fun src => src.sid != sid) }
      if s1.isCurrentlySpeaking then
        match s1.audioQueue with
        | u :: rest =>
          playAudioSync { s1 with currentPlaybackTime := 0, audioQueue := rest } u
        | [] => s1
      else s1
    else s
  | .enqueue u =>
    if s.pipelineInFlight = 0 then s
    else
      { s with audioQueue := s.audioQueue ++ [u]
               pipelineInFlight := s.pipelineInFlight - 1 }
  | .initFetch ok =>
    if s.pendingInitFetch = 0 then s
    else
      let s1 := { s with pendingInitFetch := s.pendingInitFetch - 1 }
      if ok then { s1 with pendingInitBlob := s1.pendingInitBlob + 1 }
      else { s1 with isFirstSpeech := false }
  | .initBlobReady =>
    if s.pendingInitBlob = 0 then s
    else
      let s1 := { s with pendingInitBlob := s.pendingInitBlob - 1 }
      let s2 := playAudioSync s1 bootstrapUnit
      { s2 with isFirstSpeech := false }
  | .tick =>
    { s with clock := s.clock + 1
             playing := s.playing.map (fun src => { src with elapsed := src.elapsed + 1 }) }

def runClient (events : List CEvent) : ClientState :=
  events.foldl clientStep initialClientState

/-- Iterated time passage. -/
def tickN : Nat → ClientState → ClientState
  | 0, s => s
  | k + 1, s => tickN k (clientStep s CEvent.tick)

/-- A synthesized reply unit as `processUserSpeech` enqueues it. -/
def demoUnit : AudioUnit :=
  { blob := 5, voiceId := "advisor", position := some { x := 0, y := 0, z := 1 }
    timestamp := 7 }

/-- First speech of the session; the bootstrap unit is fetched, decoded and
started; then it plays audibly for three time units. -/
def c1PauseTrace : List CEvent :=
  [CEvent.speechStart, CEvent.initFetch true, CEvent.initBlobReady, CEvent.decodeDone 0,
   CEvent.tick, CEvent.tick, CEvent.tick]

/-- Speech then ends while the unit is three time units in, and the next
speech start (with an empty queue) resumes the preserved current unit. -/
def c1ResumeTrace : List CEvent :=
  c1PauseTrace ++ [CEvent.speechEnd, CEvent.speechStart, CEvent.decodeDone 0]

/-- C1: the claim says `onSpeechEnd` captures the playback offset as the
current elapsed time of the playing unit and that the next `onSpeechStart`
resumes that unit from the saved offset.  The code does neither: the unit
has been audible for 3 time units when speech ends, yet after `onSpeechEnd`
the saved offset `currentPlaybackTime` is still 0 (`onSpeechEnd` only logs
the variable, it never assigns the elapsed time to it), and the
reconstructed source of the resumed unit is started at offset 0, not 3 —
`playAudio` resets `currentPlaybackTime` to 0 on every call because
`currentAudioData` was just assigned the fresh copy `{...data}`, so
`currentAudioData !== data` always holds.  The current unit itself is
preserved, as claimed. -/
theorem c1_pause_resume_offset_bug :
    (runClient c1PauseTrace).playing
      = [{ sid := 0, unit := bootstrapUnit, startOffset := 0, elapsed := 3 }]
    ∧ (clientStep (runClient c1PauseTrace) CEvent.speechEnd).currentPlaybackTime = 0
    ∧ (clientStep (runClient c1PauseTrace) CEvent.speechEnd).currentAudioData
      = some bootstrapUnit
    ∧ (runClient c1ResumeTrace).playing
      = [{ sid := 1, unit := bootstrapUnit, startOffset := 0, elapsed := 0 }]
    ∧ ¬ (runClient c1ResumeTrace).currentPlaybackTime = 3
    ∧ ¬ (runClient c1ResumeTrace).playing
        = [{ sid := 1, unit := bootstrapUnit, startOffset := 3, elapsed := 0 }] := by
  decide

/-- Interleaving refuting C2: a first speech segment leaves one decode of
the queued unit in flight; a second speech segment re-issues `playAudio` on
the preserved current unit (a second decode of the same buffer); both
decodes then resolve while the user is speaking, so both sources start, but
only the second is tracked by `currentAudioElement`.  The final
`onSpeechEnd` stops the tracked source only. -/
def c2Trace : List CEvent :=
  [CEvent.speechStart, CEvent.initFetch false, CEvent.speechEnd, CEvent.enqueue demoUnit,
   CEvent.speechStart, CEvent.speechEnd, CEvent.speechStart,
   CEvent.decodeDone 0, CEvent.decodeDone 0, CEvent.speechEnd]

theorem clientStep_tick_playing_length (s : ClientState) :
    (clientStep s CEvent.tick).playing.length = s.playing.length := by
  simp [clientStep]

theorem tickN_playing_length (k : Nat) :
    ∀ (s : ClientState), (tickN k s).playing.length = s.playing.length := by
  induction k with
  | zero => intro s; rfl
  | succ k ih =>
    intro s
    rw [tickN, ih, clientStep_tick_playing_length]

/-- C2: the claim says that in every reachable state audio is audibly
playing only while `isSpeaking` is true, every playing source being stopped
within one event-loop tick of `isSpeaking` becoming false, including across
the asynchronous decode gap inside `playAudio`.  This run reaches a state
in which `isCurrentlySpeaking` is false yet a started, unstopped source is
still playing: the source that the first decode started was displaced from
`currentAudioElement` by the second decode, `onSpeechEnd` stops only the
tracked element, no decode callback remains in flight, and any amount of
further time passage leaves the orphan source playing. -/
theorem c2_untracked_source_keeps_playing :
    (runClient c2Trace).isCurrentlySpeaking = false
    ∧ (runClient c2Trace).playing
      = [{ sid := 0, unit := demoUnit, startOffset := 0, elapsed := 0 }]
    ∧ (runClient c2Trace).pendingDecodes = []
    ∧ ∀ (k : Nat), (tickN k (runClient c2Trace)).playing.length = 1 := by
  refine ⟨by decide, by decide, by decide, ?_⟩
  intro k
  rw [tickN_playing_length]
  decide

/-- Run refuting C7 as stated: the initial `/last-audio` fetch of the first
speech event has not resolved yet when the second speech-start fires, so
`isFirstSpeech` is still true; a reply unit has meanwhile been queued. -/
def c7Trace : List CEvent :=
  [CEvent.speechStart, CEvent.speechEnd, CEvent.enqueue demoUnit, CEvent.speechStart]

/-- Counterexample for C7: a speech-start event fires in a reachable state
whose playback queue is non-empty, yet the queue head is not dequeued and
nothing is played — the `isFirstSpeech` branch runs first and it fetches
the bootstrap audio instead of consuming the queue. -/
theorem c7_counterexample :
    (runClient c7Trace).audioQueue = [demoUnit]
    ∧ (runClient c7Trace).isFirstSpeech = true
    ∧ (runClient c7Trace).pendingDecodes = []
    ∧ (runClient c7Trace).currentAudioData = none
    ∧ (runClient c7Trace).playing = []
    ∧ ¬ (runClient c7Trace).audioQueue = [] := by
  decide

/-- C7 (amended): once the first-speech bootstrap has completed
(`isFirstSpeech` is false), every speech-start event with a non-empty queue
dequeues the head unit, discards any paused current unit in its favour
(regardless of how recently it was paused), resets the playback offset to
0, and dispatches the decode of the head; when that decode resolves (here:
no other decode in flight) while the user is still speaking, the head is
started at offset 0. -/
theorem c7_queue_preempts_after_first (s : ClientState) (u : AudioUnit)
    (rest : List AudioUnit) (hfirst : s.isFirstSpeech = false)
    (hq : s.audioQueue = u :: rest) (hpos : u.position.isSome = true)
    (hd : s.pendingDecodes = []) :
    (clientStep s CEvent.speechStart).audioQueue = rest
    ∧ (clientStep s CEvent.speechStart).isCurrentlySpeaking = true
    ∧ (clientStep s CEvent.speechStart).currentPlaybackTime = 0
    ∧ (clientStep s CEvent.speechStart).currentAudioData
      = some { u with timestamp := if u.timestamp = 0 then s.clock else u.timestamp }
    ∧ (clientStep s CEvent.speechStart).pendingDecodes = [(s.nextSid, u)]
    ∧ (clientStep (clientStep s CEvent.speechStart) (CEvent.decodeDone 0)).playing
      = (clientStep s CEvent.speechStart).playing
        ++ [{ sid := s.nextSid, unit := u, startOffset := 0, elapsed := 0 }] := by
  cases hpos2 : u.position with
  | none => rw [hpos2] at hpos; simp at hpos
  | some p =>
    cases he : s.currentAudioElement <;>
      simp [clientStep, hfirst, hq, playAudioSync, stopForPlayAudio, hpos2, hd, he]

/-- State in which the bootstrap has completed and one reply is queued. -/
def c7WitnessState : ClientState :=
  runClient [CEvent.speechStart, CEvent.initFetch false, CEvent.speechEnd,
    CEvent.enqueue demoUnit]

/-- Witness for C7 (amended) at a concrete reachable state. -/
theorem c7_queue_preempts_after_first_witness :
    (clientStep c7WitnessState CEvent.speechStart).audioQueue = []
    ∧ (clientStep c7WitnessState CEvent.speechStart).currentPlaybackTime = 0 :=
  let h := c7_queue_preempts_after_first c7WitnessState demoUnit []
    (by decide) (by decide) (by decide) (by decide)
  ⟨h.1, h.2.2.1⟩

end TWYS
